import Mathlib

/-!
Verification of `torchgen/static_runtime/generator.py`: a shallow embedding of
the static-runtime code generator (eligibility classification, ivalue type
conversion, call-expression synthesis, dispatch-table emission, and test-case
emission), together with theorems settling the specification claims.

Python machine strings are embedded as Lean `String`s; Python `dict`s keyed by
argument name are embedded as association lists preserving insertion order;
Python `assert` failures are embedded as `Option.none` results.  External
collaborators (the hand-written override predicate `config.is_hand_written`,
the test-value override hook `config.override_test_values`, and the backend
kernel index) are taken as function parameters, exactly as the source consumes
them.
-/

namespace StaticRuntimeGen

/-! ## Data model (torchgen.model, consumed read-only by the generator)

The generator imports its data model (`Argument`, `FunctionSchema`,
`NativeFunctionsGroup`, ...) from `torchgen.model`, which is an external
collaborator of this source file.  The fields below are exactly the ones the
generator reads. -/

/-- Base type tags (`torchgen.model.BaseTy`).  The first seven appear in the
generator's conversion and test tables; the rest stand for the remaining tags
of the catalog, which no generator table maps. -/
inductive BaseTy where
  | Tensor
  | int
  | bool
  | float
  | Scalar
  | ScalarType
  | str
  | Layout
  | Device
  | Generator
  | MemoryFormat
  | SymInt
  deriving DecidableEq, Repr

/-- Declared argument types (`torchgen.model.Type`): a closed union of base
types, `Optional`-wrapped types and list types. -/
inductive Ty where
  | base (name : BaseTy)
  | optional (elem : Ty)
  | list (elem : Ty)
  deriving DecidableEq, Repr

/-- Alias information carried by an argument (`torchgen.model.Annotation`);
`has_alias` only reads whether `alias_set` is non-empty. -/
structure AliasInfo where
  alias_set : List String
  deriving DecidableEq, Repr

/-- One schema argument (`torchgen.model.Argument`): name, declared type and
optional alias information (the `annotation` attribute in the source). -/
structure Argument where
  name : String
  type : Ty
  ann : Option AliasInfo
  deriving DecidableEq, Repr

/-- One return slot (`torchgen.model.Return`); the generator only reads its
declared type. -/
structure Return where
  type : Ty
  deriving DecidableEq, Repr

/-- Overload-qualified operator name (`torchgen.model.OperatorName`):
`name.name.base` in the source is `base` here, `overload_name` is
`overload`. -/
structure OperatorName where
  base : String
  overload : String
  deriving DecidableEq, Repr

/-- A non-output argument slot of `schema.arguments.non_out`: either a plain
`Argument`, the `SelfArgument` wrapper around one, or the
`TensorOptionsArguments` bundle (which the generator never accepts). -/
inductive NonOutArg where
  | plain (a : Argument)
  | selfA (argument : Argument)
  | tensorOpts
  deriving DecidableEq, Repr

/-- One function schema (`torchgen.model.FunctionSchema`) restricted to the
fields the generator reads: the operator name, the canonical
`schema_order_arguments()` list, the `arguments.out` / `arguments.non_out`
split, the return slots, the C++ rendering of the return type that
`torchgen.api.cpp.returns_type(...).cpp_type()` (an external collaborator not
under src/) computes for it, and the text following `"name("` in
`str(schema)`. -/
structure FunctionSchema where
  name : OperatorName
  schema_order_arguments : List Argument
  arguments_out : List Argument
  arguments_non_out : List NonOutArg
  returns : List Return
  returns_cpp_type : String
  sig_rest : String
  deriving DecidableEq, Repr

/-- A native function (`torchgen.model.NativeFunction`); the generator only
reads its schema (and, for views, its root name, which is derived below). -/
structure NativeFunction where
  func : FunctionSchema
  deriving DecidableEq, Repr

/-- Modelled from the spec: a view group is "a view-producing schema plus its
root name"; `NativeFunction.root_name` (torchgen.model, not under src/) is the
base name of the operator. -/
def root_name (f : NativeFunction) : String :=
  f.func.name.base

/-- An out-variant operator group (`torchgen.model.NativeFunctionsGroup`):
the functional schema, its out counterpart, and the structured flag. -/
structure NativeFunctionsGroup where
  functional : NativeFunction
  out : NativeFunction
  structured : Bool
  deriving DecidableEq, Repr

/-- A view operator group (`torchgen.model.NativeFunctionsViewGroup`). -/
structure NativeFunctionsViewGroup where
  view : NativeFunction
  deriving DecidableEq, Repr

/-- The union `Union[NativeFunctionsGroup, NativeFunctionsViewGroup]` that
`is_supported` receives. -/
inductive GroupU where
  | outg (g : NativeFunctionsGroup)
  | viewg (g : NativeFunctionsViewGroup)
  deriving DecidableEq, Repr

/-- A backend kernel binding; `backend_index.get_kernel` yields one (or
nothing), and the generator reads its `kernel` symbol name. -/
structure Kernel where
  kernel : String
  deriving DecidableEq, Repr

/-- The backend index, consumed only through `get_kernel`. -/
def BackendIndex : Type :=
  NativeFunction → Option Kernel

/-- The hand-written override predicate `config.is_hand_written` (external
collaborator). -/
def HandWritten : Type :=
  GroupU → Bool

/-- The test-value override hook `config.override_test_values` (external
collaborator): it may rewrite the argument-name → literal map in place. -/
def OverrideHook : Type :=
  List (String × String) → String → Nat → List (String × String)

/-! ## Small string helpers mirroring the Python primitives used -/

/-- Python `",".join(...)` / `";\n    ".join(...)`. -/
def str_join (sep : String) : List String → String
  | [] => ""
  | [x] => x
  | x :: y :: rest => x ++ sep ++ str_join sep (y :: rest)

/-- Python `s.startswith(p)`. -/
def str_starts_with (s p : String) : Bool :=
  List.isPrefixOf p.data s.data

/-- Python `s.endswith(p)`. -/
def str_ends_with (s p : String) : Bool :=
  List.isSuffixOf p.data s.data

/-- First index at which `p` holds, if any (used for Python `s.find(c)`). -/
def find_idx (p : Char → Bool) : List Char → Option Nat
  | [] => none
  | c :: cs =>
    if p c then some 0
    else (find_idx p cs).map (· + 1)

/-- Python `s.find(c)` for a one-character needle: first index, or `-1`. -/
def str_find (s : String) (c : Char) : Int :=
  match find_idx (fun a => a = c) s.data with
  | some n => (n : Int)
  | none => -1

/-- Python `s[:i]` for an `int` index `i` (negative indices count from the
end, as in Python slicing). -/
def py_slice_to (s : String) (i : Int) : String :=
  if i < 0 then ⟨s.data.take (s.data.length - (-i).toNat)⟩
  else ⟨s.data.take i.toNat⟩

/-- Python `s.replace(".", "_")` (the needle is a single character, so this is
a character map). -/
def replace_dots (s : String) : String :=
  ⟨s.data.map (fun c => if c = '.' then '_' else c)⟩

/-- `mapM` over `Option`, written out so that proofs can unfold it; a `none`
anywhere models the first failing `assert` in a Python loop. -/
def mapM_opt (f : α → Option β) : List α → Option (List β)
  | [] => some []
  | a :: rest =>
    match f a with
    | none => none
    | some b =>
      match mapM_opt f rest with
      | none => none
      | some bs => some (b :: bs)

/-! ## Modelled textual renderings (torchgen.model `__str__`, not under src/) -/

/-- Modelled from the spec: the overload-qualified operator name (the claim's
"base.overload" string, `str(OperatorName)` in torchgen.model, which is not
under src/): the base name, followed by a dot and the overload name when the
overload name is non-empty. -/
def name_str (n : OperatorName) : String :=
  if n.overload = "" then n.base else n.base ++ "." ++ n.overload

/-- Modelled from the spec: the textual signature `str(FunctionSchema)`
(torchgen.model, not under src/) — "the schema text" — is the
overload-qualified name followed by the parenthesized argument/return text. -/
def schema_str (s : FunctionSchema) : String :=
  name_str s.name ++ "(" ++ s.sig_rest

/-- Modelled from the spec: `FunctionSchema.is_out_fn` (torchgen.model, not
under src/) — an out variant "takes a pre-allocated mutable output argument",
i.e. its `arguments.out` list is non-empty. -/
def is_out_fn (s : FunctionSchema) : Bool :=
  !s.arguments_out.isEmpty

/-- Modelled from the spec: `torchgen.api.cpp.name` (not under src/) is "a
name derived deterministically from the schema": the base name qualified by
the overload suffix. -/
def cpp_name (func : FunctionSchema) : String :=
  if func.name.overload = "" then func.name.base
  else func.name.base ++ "_" ++ func.name.overload

/-- Modelled from the spec: `config.func_name_base_str` (torchgen
static-runtime config, not under src/) yields the base operator name of a
view group. -/
def func_name_base_str (g : NativeFunctionsViewGroup) : String :=
  root_name g.view

/-! ## `has_alias` (generator.py lines 27-37) -/

/-- `has_alias(arguments)`: whether some slot carries a non-empty alias set.
`SelfArgument` and `TensorOptionsArguments` expose no `annotation`
attribute, so `getattr(arg, "annotation", None)` skips them. -/
def has_alias (arguments : List NonOutArg) : Bool :=
  arguments.any (fun arg =>
    match arg with
    | NonOutArg.plain a =>
      match a.ann with
      | some an => !an.alias_set.isEmpty
      | none => false
    | _ => false)

/-! ## The denylist `BLOCKED_OPS` (generator.py lines 40-75) -/

/-- The fixed flat denylist of base operator names. -/
def BLOCKED_OPS : List String :=
  [ "sparse_sampled_addmm"
  , "hspmm"
  , "sspaddmm"
  , "coalesce"
  , "_indices"
  , "indices"
  , "_values"
  , "values"
  , "crow_indices"
  , "col_indices"
  , "floor_divide"
  , "ger"
  , "conj_physical"
  , "binary_cross_entropy"
  , "arccosh"
  , "cholesky"
  , "lu_solve"
  , "linalg_cholesky"
  , "linalg_householder_product"
  , "linalg_ldl_solve"
  , "_compute_linear_combination"
  , "_make_dual"
  , "_fw_primal"
  , "_index_reduce"
  ]

/-! ## Type Conversion Mapper (generator.py lines 135-175) -/

/-- The `type_conversion_methods` table: for each supported base type tag, the
(direct, Optional-wrapped) pair of `(is_by_reference, expression)` rules. -/
def type_conversion_methods (b : BaseTy) : Option ((Bool × String) × (Bool × String)) :=
  match b with
  | BaseTy.Tensor => some ((true, "toTensor()"), (false, "toOptional<at::Tensor>()"))
  | BaseTy.int => some ((false, "toInt()"), (false, "toOptional<int64_t>()"))
  | BaseTy.bool => some ((false, "toBool()"), (false, "toOptional<bool>()"))
  | BaseTy.Scalar => some ((false, "toScalar()"), (false, "toOptional<at::Scalar>()"))
  | BaseTy.ScalarType => some ((false, "toScalarType()"), (false, "toOptional<at::ScalarType>()"))
  | BaseTy.str => some ((false, "toStringView()"), (false, "toOptional<c10::string_view>()"))
  | _ => none

/-- `ivalue_type_conversion_method(arg_type)`: the `(is_by_reference,
expression)` rule for extracting a value of the given declared type from an
ivalue, or no rule.  A `BaseType` selects the direct rule, an `OptionalType`
wrapping a `BaseType` selects the Optional-wrapped rule; everything else
(including every list type) has no rule. -/
def ivalue_type_conversion_method (arg_type : Ty) : Option (Bool × String) :=
  match arg_type with
  | Ty.base b => (type_conversion_methods b).map Prod.fst
  | Ty.optional (Ty.base b) => (type_conversion_methods b).map Prod.snd
  | _ => none

/-! ## Test-value heuristic tables (generator.py lines 178-239) -/

/-- Operators whose synthetic tensors draw from the bounded-integer
generator. -/
def should_use_int_tensor_ops_ : List String :=
  [ "bitwise_not", "bitwise_and", "bitwise_or", "bitwise_xor"
  , "bitwise_left_shift", "bitwise_right_shift", "gcd", "lcm", "scatter"
  , "gather", "_convert_indices_from_coo_to_csr"
  , "_convert_indices_from_csr_to_coo" ]

/-- Operators whose synthetic tensors draw complex values. -/
def should_use_complex_tensor_ops_ : List String :=
  [ "view_as_real", "imag", "_conj" ]

/-- `should_use_int_tensor(op_name)`. -/
def should_use_int_tensor (op_name : String) : Bool :=
  should_use_int_tensor_ops_.contains op_name

/-- `should_use_complex_tensor(op_name)`. -/
def should_use_complex_tensor (op_name : String) : Bool :=
  should_use_complex_tensor_ops_.contains op_name

/-- First fixed name→dimension table (dimensionality 1). -/
def test_tensor_dim_ops_1_ : List String :=
  [ "addmv", "index_add", "_convert_indices_from_coo_to_csr"
  , "_convert_indices_from_csr_to_coo", "nll_loss_backward", "dot", "vdot"
  , "outer", "ger" ]

/-- Second fixed name→dimension table (dimensionality 2). -/
def test_tensor_dim_ops_2_ : List String :=
  [ "addmm", "mm", "nuclear_norm", "diag", "_addmm_activation", "matrix_H"
  , "t" ]

/-- `test_tensor_dim(op_name)`: 1 or 2 for names in the fixed tables, else
3. -/
def test_tensor_dim (op_name : String) : Nat :=
  if test_tensor_dim_ops_1_.contains op_name then 1
  else if test_tensor_dim_ops_2_.contains op_name then 2
  else 3

/-- The per-operator tensor-shape override table, parsed from
`test_tensor_shapes_string = '{"view_as_complex": "{2, 2}"}'`. -/
def test_tensor_shape_json : List (String × String) :=
  [ ("view_as_complex", "\x7b2, 2\x7d") ]

/-- `test_tensor_shape(op_name)`: the override entry, or `""`. -/
def test_tensor_shape (op_name : String) : String :=
  match test_tensor_shape_json.lookup op_name with
  | some s => s
  | none => ""

/-! ## Test value expressions (generator.py lines 242-297) -/

/-- The tensor-size literal computed inside `test_value_expression` (lines
245-251): the shape override if present, otherwise an even-rounded
`ceil(num_tensors / num_dim)` repeated over `num_dim` dimensions, where
`num_tensors` is 16 for round 0 and 64 otherwise.  Python computes the
per-dimension size as `math.ceil(num_tensors / float(num_dim))`; for every
reachable pair (`num_tensors ∈ {16, 64}`, `num_dim ∈ {1, 2, 3}`) the float
division is evaluated exactly, so Nat ceiling division agrees with it. -/
def tensor_size_expr (op_name : String) (index : Nat) : String :=
  let tensor_size_ex := test_tensor_shape op_name
  if tensor_size_ex = "" then
    let num_tensors : Nat := if index = 0 then 16 else 64
    let num_dim := test_tensor_dim op_name
    let size_per_dim := (num_tensors + num_dim - 1) / num_dim
    let size_per_dim := size_per_dim + size_per_dim % 2
    "\x7b" ++ str_join (",") (List.replicate num_dim (Nat.repr size_per_dim)) ++ "\x7d"
  else tensor_size_ex

/-- The `value_expressions` table lookup of `test_value_expression` (lines
259-277): the fixed literal for each supported base type, with `Tensor`
mapping to the synthesized tensor expression; an unmapped tag models the
`assert base_ty_object in value_expressions` failure. -/
def value_expr_for (b : BaseTy) (tensor_expression : String) : Option String :=
  match b with
  | BaseTy.Tensor => some tensor_expression
  | BaseTy.int => some ("1")
  | BaseTy.bool => some ("false")
  | BaseTy.Scalar => some ("2")
  | BaseTy.ScalarType => some ("at::ScalarType::Float")
  | BaseTy.str => some ("\"floor\"")
  | _ => none

/-- `test_value_expression(arg_type, index, op_name)`: the literal input
expression for one argument; `none` models its assertion failures (an
argument type that is neither a base type nor an Optional-wrapped base type,
or a base tag outside `value_expressions`). -/
def test_value_expression (arg_type : Ty) (index : Nat) (op_name : String) :
    Option String :=
  let tensor_size_ex := tensor_size_expr op_name index
  let tensor_expression :=
    if should_use_int_tensor op_name then
      "at::randint(1, 100, " ++ tensor_size_ex ++ ", at::kInt)"
    else if should_use_complex_tensor op_name then
      "at::randn(" ++ tensor_size_ex ++ ", at::kComplexFloat)"
    else
      "at::rand(" ++ tensor_size_ex ++ ")"
  match arg_type with
  | Ty.base b => value_expr_for b tensor_expression
  | Ty.optional (Ty.base b) => value_expr_for b tensor_expression
  | _ => none

/-- Python `dict` insertion keyed by argument name: overwriting an existing
key keeps its position, a fresh key is appended. -/
def dict_insert : List (String × String) → String → String → List (String × String)
  | [], k, v => [(k, v)]
  | (k', v') :: rest, k, v =>
    if k' = k then (k, v) :: rest
    else (k', v') :: dict_insert rest k v

/-- The `arg_map` loop of `generate_test_value_definitions` (lines 284-287):
one `test_value_expression` per schema-order argument, inserted into the map
under the argument's name. -/
def build_arg_map (schema_name : String) (index : Nat) :
    List Argument → List (String × String) → Option (List (String × String))
  | [], acc => some acc
  | a :: rest, acc =>
    match test_value_expression a.type index schema_name with
    | none => none
    | some v => build_arg_map schema_name index rest (dict_insert acc a.name v)

/-- `generate_test_value_definitions(schema, index)` (lines 281-292), with the
external `config.override_test_values` hook passed in as `ov`. -/
def generate_test_value_definitions (ov : OverrideHook) (schema : FunctionSchema)
    (index : Nat) : Option String :=
  if is_out_fn schema then none
  else
    match build_arg_map schema.name.base index schema.schema_order_arguments [] with
    | none => none
    | some arg_map =>
      let arg_map := ov arg_map schema.name.base index
      let arg_populations := arg_map.map
        (fun p => "auto " ++ p.1 ++ Nat.repr index ++ " = " ++ p.2)
      some (str_join (";\n    ") arg_populations ++ ";")

/-- `generate_test_value_names(schema, index)` (lines 295-297). -/
def generate_test_value_names (schema : FunctionSchema) (index : Nat) :
    Option String :=
  if is_out_fn schema then none
  else some (str_join (",")
    (schema.schema_order_arguments.map (fun a => a.name ++ Nat.repr index)))

/-! ## Test IR arguments (generator.py lines 300-328) -/

/-- The `generate_test_ir_arguments_base_ty_to_type_str_` table. -/
def ir_type_str (b : BaseTy) : Option String :=
  match b with
  | BaseTy.Tensor => some ("Tensor")
  | BaseTy.int => some ("int")
  | BaseTy.float => some ("float")
  | BaseTy.str => some ("str")
  | BaseTy.Scalar => some ("int")
  | BaseTy.ScalarType => some ("int")
  | BaseTy.bool => some ("bool")
  | _ => none

/-- The inner `ir_argument` of `generate_test_ir_arguments`: unwrap one
`Optional` layer, require a base type (`assert isinstance(t, BaseType)`),
look up the IR type string (appending `?` when it exists and the argument was
Optional-wrapped), and prefix the name with `%`. -/
def ir_argument (arg : Argument) : Option (String × Option String) :=
  match arg.type with
  | Ty.base b => some ("%" ++ arg.name, ir_type_str b)
  | Ty.optional (Ty.base b) =>
    some ("%" ++ arg.name, (ir_type_str b).map (fun ts => ts ++ "?"))
  | _ => none

/-- `generate_test_ir_arguments(schema)`. -/
def generate_test_ir_arguments (schema : FunctionSchema) :
    Option (List (String × Option String)) :=
  mapM_opt ir_argument schema.schema_order_arguments

/-! ## Argument extraction (generator.py lines 331-341) -/

/-- The `enumerate(schema.schema_order_arguments())` loop of
`generate_arg_extraction`: one extraction line per argument, positionally
indexed; `none` models the `assert maybe_method` failure on an argument type
without a conversion rule. -/
def arg_extraction_list (i : Nat) : List Argument → Option (List String)
  | [] => some []
  | a :: rest =>
    match ivalue_type_conversion_method a.type with
    | none => none
    | some m =>
      let reference := if m.1 then "&" else ""
      match arg_extraction_list (i + 1) rest with
      | none => none
      | some l =>
        some (("const auto" ++ reference ++ " " ++ a.name ++ " = p_node->Input("
          ++ Nat.repr i ++ ")." ++ m.2) :: l)

/-- `generate_arg_extraction(schema)`. -/
def generate_arg_extraction (schema : FunctionSchema) : Option String :=
  match arg_extraction_list 0 schema.schema_order_arguments with
  | none => none
  | some arg_populations => some (str_join (";\n    ") arg_populations ++ ";")

/-! ## Kernel names and call synthesis (generator.py lines 344-405) -/

/-- `get_kernel_name(g, backend_index)`. -/
def get_kernel_name (g : NativeFunctionsGroup) (backend_index : BackendIndex) :
    String :=
  match backend_index g.functional with
  | some kernel => if g.structured then cpp_name g.functional.func else kernel.kernel
  | none => cpp_name g.functional.func

/-- `get_out_kernel_name(g, backend_index)`. -/
def get_out_kernel_name (g : NativeFunctionsGroup) (backend_index : BackendIndex) :
    String :=
  match backend_index g.out with
  | some kernel => if g.structured then cpp_name g.out.func else kernel.kernel
  | none => cpp_name g.out.func

/-- `generate_non_out_variant_call(g, backend_index)`; `none` models the
`assert not schema.is_out_fn()` failure. -/
def generate_non_out_variant_call (g : NativeFunctionsGroup)
    (backend_index : BackendIndex) : Option String :=
  if is_out_fn g.functional.func then none
  else
    let kernel_name := get_kernel_name g backend_index
    let arg_names := g.functional.func.schema_order_arguments.map Argument.name
    let namespace_name := if g.structured then "cpu" else "native"
    some ("at::" ++ namespace_name ++ "::" ++ kernel_name ++ "("
      ++ str_join (",") arg_names ++ ")")

/-- `generate_call_to_view_ops(g, backend_index)`: kernel name resolved
through the backend index (defaulting to the derived name), namespace fixed
to `native`. -/
def generate_call_to_view_ops (g : NativeFunctionsViewGroup)
    (backend_index : BackendIndex) : String :=
  let kernel_name :=
    match backend_index g.view with
    | some kernel => kernel.kernel
    | none => cpp_name g.view.func
  let arg_names := g.view.func.schema_order_arguments.map Argument.name
  let namespace_name := "native"
  "at::" ++ namespace_name ++ "::" ++ kernel_name ++ "("
    ++ str_join (",") arg_names ++ ")"

/-- The name a `schema.arguments.non_out` slot contributes to the out-variant
call (lines 394-399): a `SelfArgument` resolves to its underlying argument's
name, a plain `Argument` to its own name; `none` models the
`assert isinstance(arg, Argument)` failure on a `TensorOptionsArguments`. -/
def resolve_non_out_name : NonOutArg → Option String
  | NonOutArg.plain a => some a.name
  | NonOutArg.selfA argument => some argument.name
  | NonOutArg.tensorOpts => none

/-- The `arg_names` list assembled by `generate_out_variant_call` (lines
385-402): output-argument names first when the group is structured, the
non-output names in schema order, and — for an unstructured group — the
single output argument's name appended last (`none` models the
`assert len(schema.arguments.out) == 1` failure, and the initial
`assert schema.is_out_fn()`). -/
def out_variant_arg_names (g : NativeFunctionsGroup) : Option (List String) :=
  if !is_out_fn g.out.func then none
  else
    let base := if g.structured then g.out.func.arguments_out.map Argument.name else []
    match mapM_opt resolve_non_out_name g.out.func.arguments_non_out with
    | none => none
    | some non_out_names =>
      let arg_names := base ++ non_out_names
      if g.structured then some arg_names
      else
        match g.out.func.arguments_out with
        | [out_arg] => some (arg_names ++ [out_arg.name])
        | _ => none

/-- `generate_out_variant_call(g, backend_index)`. -/
def generate_out_variant_call (g : NativeFunctionsGroup)
    (backend_index : BackendIndex) : Option String :=
  match out_variant_arg_names g with
  | none => none
  | some arg_names =>
    let kernel_name := get_out_kernel_name g backend_index
    let cpp_arg_names := str_join (",") arg_names
    let namespace_name := if g.structured then "cpu" else "native"
    some ("at::" ++ namespace_name ++ "::" ++ kernel_name ++ "("
      ++ cpp_arg_names ++ ")")

/-! ## Resize gating (generator.py lines 408-432) -/

/-- The fixed no-resize denylist `no_memory_resize_ops`. -/
def no_memory_resize_ops : List String :=
  [ "isin.Scalar_Tensor"
  , "index_add"
  , "dot"
  , "vdot"
  , "nuclear_norm"
  , "histc"
  , "l1_loss"
  , "multi_margin_loss"
  , "multilabel_margin_loss"
  , "nll_loss"
  , "nll_loss2d"
  ]

/-- `should_check_resize(schema)`: slice `str(schema)` up to the first `(`
and test that overload-qualified name against the denylist. -/
def should_check_resize (schema : FunctionSchema) : Bool :=
  let schema_s := schema_str schema
  let type_variant_op_name := py_slice_to schema_s (str_find schema_s '(')
  !(no_memory_resize_ops.contains type_variant_op_name)

/-- `op_name_from_group(g)`. -/
def op_name_from_group (g : NativeFunctionsGroup) : String :=
  g.functional.func.name.base

/-! ## Eligibility Classifier (generator.py lines 78-132) -/

/-- The `base_op_name` selected at the top of `is_supported` (lines 79-86). -/
def base_op_name : GroupU → String
  | GroupU.viewg g => root_name g.view
  | GroupU.outg g => g.out.func.name.base

/-- The `func` schema selected at the top of `is_supported` (lines 79-86). -/
def func_of : GroupU → FunctionSchema
  | GroupU.viewg g => g.view.func
  | GroupU.outg g => g.out.func

/-- Whether some schema-order argument of `func` lacks a conversion rule
(the rejection loops at lines 93-98 and 108-113). -/
def some_arg_unconvertible (func : FunctionSchema) : Bool :=
  func.schema_order_arguments.any
    (fun arg => (ivalue_type_conversion_method arg.type).isNone)

/-- `is_supported(g)` with the external `config.is_hand_written` predicate
passed in as `hw`.  The `hasattr(g, "out")` test of line 120 is always true
for a `NativeFunctionsGroup` (the field exists), so it is modelled as
passing. -/
def is_supported (hw : HandWritten) (g : GroupU) : Bool :=
  if hw g then false
  else if BLOCKED_OPS.contains (base_op_name g) then false
  else if some_arg_unconvertible (func_of g) then false
  else
    match g with
    | GroupU.viewg _ =>
      decide ((func_of g).returns_cpp_type = "at::Tensor")
    | GroupU.outg og =>
      if some_arg_unconvertible og.functional.func then false
      else if !og.structured
          && !(str_ends_with (schema_str og.out.func) ("Tensor(a!) out) -> Tensor(a!)")
               && str_ends_with (name_str og.out.func.name) (".out")) then false
      else if !decide (og.out.func.returns_cpp_type = "at::Tensor &") then false
      else if has_alias og.out.func.arguments_non_out then false
      else true

/-! ## Dispatch Table Emitter (generator.py lines 435-526) -/

/-- The f-string template of `out_variant_op_generator` (lines 498-510),
written as a template function of its fully-resolved interpolation values. -/
def out_variant_dispatch_template (schema populated_argument
    functional_variant_call out_variable_name out_variant_call : String) : String :=
  "\n      if (n->matches(torch::schema(\"aten::" ++ schema
    ++ "\"))) \x7b\n        return [](ProcessedNode* p_node) \x7b\n          "
    ++ populated_argument
    ++ "\n          if (p_node->Output(0).isNone()) \x7b\n            p_node->Output(0) = "
    ++ functional_variant_call
    ++ ";\n            return;\n          \x7d\n          auto& "
    ++ out_variable_name
    ++ " = p_node->Output(0).toTensor();\n          "
    ++ "fastResizeToZero("
    ++ out_variable_name
    ++ ");\n          "
    ++ out_variant_call
    ++ ";\n        \x7d;\n      \x7d"

/-- `GenOpDispatcher.out_variant_op_generator(g, backend_index)` (lines
488-511): the guarded dispatch closure for one out-variant type signature;
`none` models the assertion failures of the synthesizers it calls and its own
`assert len(g.out.func.arguments.out) == 1`. -/
def out_variant_op_generator (g : NativeFunctionsGroup)
    (backend_index : BackendIndex) : Option String :=
  let schema := schema_str g.functional.func
  match generate_arg_extraction g.functional.func with
  | none => none
  | some populated_argument =>
    match generate_non_out_variant_call g backend_index with
    | none => none
    | some functional_variant_call =>
      match g.out.func.arguments_out with
      | [out_arg] =>
        let out_variable_name := out_arg.name
        match generate_out_variant_call g backend_index with
        | none => none
        | some out_variant_call =>
          some (out_variant_dispatch_template schema populated_argument
            functional_variant_call out_variable_name out_variant_call)
      | _ => none

/-- `GenOpDispatcher.view_op_generator(g, backend_index)` (lines 513-526). -/
def view_op_generator (g : NativeFunctionsViewGroup)
    (backend_index : BackendIndex) : Option String :=
  let schema := schema_str g.view.func
  match generate_arg_extraction g.view.func with
  | none => none
  | some populated_argument =>
    let functional_variant_call := generate_call_to_view_ops g backend_index
    some ("\n      if (n->matches(torch::schema(\"aten::" ++ schema
      ++ "\"))) \x7b\n        return [](ProcessedNode* p_node) \x7b\n          "
      ++ populated_argument
      ++ "\n            p_node->Output(0) = "
      ++ functional_variant_call
      ++ ";\n        \x7d;\n      \x7d")

namespace GenOpDispatcher

/-- `GenOpDispatcher.out_variant(groups, backend_index)` (lines 436-460): an
empty group list yields the empty string; otherwise every group must pass
`is_supported` (`assert is_supported(g)`, modelled by `none`) and the
per-variant closures are joined inside one registration template. -/
def out_variant (hw : HandWritten) (groups : List NativeFunctionsGroup)
    (backend_index : BackendIndex) : Option String :=
  match groups with
  | [] => some ""
  | g0 :: rest =>
    match mapM_opt
        (fun g =>
          if is_supported hw (GroupU.outg g) then out_variant_op_generator g backend_index
          else none)
        (g0 :: rest) with
    | none => none
    | some generated_type_variants =>
      let op_name := op_name_from_group g0
      let body := str_join ("\n") generated_type_variants
      some ("\nREGISTER_OPERATOR_FUNCTOR(\n    aten::" ++ op_name
        ++ ",\n    aten_" ++ op_name
        ++ ",\n    [](Node* n) -> SROperator \x7b\n      "
        ++ body
        ++ "\n      LogAndDumpSchema(n);\n      return nullptr;\n    \x7d);\n")

/-- `GenOpDispatcher.view(groups, backend_index)` (lines 462-486). -/
def view (hw : HandWritten) (groups : List NativeFunctionsViewGroup)
    (backend_index : BackendIndex) : Option String :=
  match groups with
  | [] => some ""
  | g0 :: rest =>
    match mapM_opt
        (fun g =>
          if is_supported hw (GroupU.viewg g) then view_op_generator g backend_index
          else none)
        (g0 :: rest) with
    | none => none
    | some generated_type_variants =>
      let op_name := func_name_base_str g0
      let body := str_join ("\n") generated_type_variants
      some ("\nREGISTER_NATIVE_OPERATOR_FUNCTOR(\n    aten::" ++ op_name
        ++ ",\n    aten_" ++ op_name
        ++ ",\n    [](Node* n) -> SROperator \x7b\n      "
        ++ body
        ++ "\n      LogAndDumpSchema(n);\n      return nullptr;\n    \x7d);\n")

end GenOpDispatcher

/-! ## Test Case Emitter (generator.py lines 529-641) -/

/-- The return-type assertion of the test-case generators (lines 570-574 and
618-622): exactly one return slot whose declared type is the base `Tensor`
type. -/
def returns_single_tensor (schema : FunctionSchema) : Bool :=
  match schema.returns with
  | [r] =>
    match r.type with
    | Ty.base BaseTy.Tensor => true
    | _ => false
  | _ => false

/-- The f-string template of `out_variant_op_test_case_generator` (lines
580-599), written as a template function of its fully-resolved interpolation
values. -/
def out_variant_test_template (type_variant_op_name op_name arg_declarations
    arg_names test_value_definitions test_value_names test_value_definitions2
    test_value_names2 check_resize : String) : String :=
  "\nTEST(StaticRuntime, autogen_" ++ type_variant_op_name
    ++ ") \x7b\n  const std::string script = R\"IR(\n    graph("
    ++ arg_declarations
    ++ "):\n        %bias: None = prim::Constant()\n        %ret = aten::"
    ++ op_name ++ "(" ++ arg_names
    ++ ")\n        %cloned = aten::clone(%ret, %bias)\n        return (%cloned)\n  )IR\";\n\n  "
    ++ test_value_definitions
    ++ "\n  std::vector<IValue> args\x7b" ++ test_value_names
    ++ "\x7d;\n  testStaticRuntime(script, args, \x7b\x7d, /*use_allclose=*/false, /*use_equalnan=*/false, "
    ++ "/*check_resize=*/" ++ check_resize
    ++ ");\n\n  "
    ++ test_value_definitions2
    ++ "\n  std::vector<IValue> args2\x7b" ++ test_value_names2
    ++ "\x7d;\n  testStaticRuntime(script, args, args2, /*use_allclose=*/false, /*use_equalnan=*/false, "
    ++ "/*check_resize=*/" ++ check_resize
    ++ ");\n\n\x7d\n"

/-- `GenOpTestCase.out_variant_op_test_case_generator(g)` (lines 554-600),
with the external test-value override hook passed in as `ov`. -/
def out_variant_op_test_case_generator (ov : OverrideHook)
    (g : NativeFunctionsGroup) : Option String :=
  let schema := g.functional.func
  let schema_s := schema_str schema
  if (0 : Int) < str_find schema_s '(' then
    let type_variant_op_name := replace_dots (py_slice_to schema_s (str_find schema_s '('))
    let op_name := op_name_from_group g
    if str_starts_with type_variant_op_name op_name then
      match generate_test_ir_arguments schema with
      | none => none
      | some arg_types =>
        let arg_declarations := str_join (", ")
          (arg_types.map (fun p =>
            match p.2 with
            | none => p.1
            | some arg_type => p.1 ++ ": " ++ arg_type))
        let arg_names := str_join (", ") (arg_types.map Prod.fst)
        if returns_single_tensor schema then
          match generate_test_value_definitions ov schema 0 with
          | none => none
          | some test_value_definitions =>
            match generate_test_value_names schema 0 with
            | none => none
            | some test_value_names =>
              match generate_test_value_definitions ov schema 1 with
              | none => none
              | some test_value_definitions2 =>
                match generate_test_value_names schema 1 with
                | none => none
                | some test_value_names2 =>
                  let check_resize := if should_check_resize schema then "true" else "false"
                  some (out_variant_test_template type_variant_op_name op_name
                    arg_declarations arg_names test_value_definitions
                    test_value_names test_value_definitions2 test_value_names2
                    check_resize)
        else none
    else none
  else none

/-- `GenOpTestCase.view_op_test_case_generator(g)` (lines 602-641). -/
def view_op_test_case_generator (ov : OverrideHook)
    (g : NativeFunctionsViewGroup) : Option String :=
  let schema := g.view.func
  let schema_s := schema_str schema
  if (0 : Int) < str_find schema_s '(' then
    let type_variant_op_name := replace_dots (py_slice_to schema_s (str_find schema_s '('))
    let op_name := root_name g.view
    if str_starts_with type_variant_op_name op_name then
      match generate_test_ir_arguments schema with
      | none => none
      | some arg_types =>
        let arg_declarations := str_join (", ")
          (arg_types.map (fun p =>
            match p.2 with
            | none => p.1
            | some arg_type => p.1 ++ ": " ++ arg_type))
        let arg_names := str_join (", ") (arg_types.map Prod.fst)
        if returns_single_tensor schema then
          match generate_test_value_definitions ov schema 0 with
          | none => none
          | some test_value_definitions =>
            match generate_test_value_names schema 0 with
            | none => none
            | some test_value_names =>
              some ("\nTEST(StaticRuntime, autogen_" ++ type_variant_op_name
                ++ ") \x7b\n  const std::string script = R\"IR(\n    graph("
                ++ arg_declarations
                ++ "):\n        %bias: None = prim::Constant()\n        %ret = aten::"
                ++ op_name ++ "(" ++ arg_names
                ++ ")\n        %cloned = aten::clone(%ret, %bias)\n        return (%cloned)\n  )IR\";\n\n  "
                ++ test_value_definitions
                ++ "\n  std::vector<IValue> args\x7b" ++ test_value_names
                ++ "\x7d;\n  testStaticRuntime(script, args);\n\x7d\n")
        else none
    else none
  else none

namespace GenOpTestCase

/-- `GenOpTestCase.out_variant(groups)` (lines 530-540). -/
def out_variant (hw : HandWritten) (ov : OverrideHook)
    (groups : List NativeFunctionsGroup) : Option String :=
  match groups with
  | [] => some ""
  | g0 :: rest =>
    match mapM_opt
        (fun g =>
          if is_supported hw (GroupU.outg g) then out_variant_op_test_case_generator ov g
          else none)
        (g0 :: rest) with
    | none => none
    | some generated_type_variants => some (str_join ("\n") generated_type_variants)

/-- `GenOpTestCase.view(groups)` (lines 542-552). -/
def view (hw : HandWritten) (ov : OverrideHook)
    (groups : List NativeFunctionsViewGroup) : Option String :=
  match groups with
  | [] => some ""
  | g0 :: rest =>
    match mapM_opt
        (fun g =>
          if is_supported hw (GroupU.viewg g) then view_op_test_case_generator ov g
          else none)
        (g0 :: rest) with
    | none => none
    | some generated_type_variants => some (str_join ("\n") generated_type_variants)

end GenOpTestCase

/-! ## Concrete fixtures (catalog records used to instantiate the theorems) -/

/-- A backend index with no kernel overrides. -/
def trivial_backend : BackendIndex := fun _ => none

/-- A hand-written override predicate marking nothing hand-written. -/
def hand_written_none : HandWritten := fun _ => false

/-- A test-value override hook that rewrites nothing. -/
def override_identity : OverrideHook := fun arg_map _ _ => arg_map

/-- The `self` tensor argument of the `dot` fixtures. -/
def self_argument : Argument :=
  { name := "self", type := Ty.base BaseTy.Tensor, ann := none }

/-- The `tensor` tensor argument of the `dot` fixtures. -/
def tensor_argument : Argument :=
  { name := "tensor", type := Ty.base BaseTy.Tensor, ann := none }

/-- The aliased `out` argument of the `dot.out` fixture. -/
def dot_out_argument : Argument :=
  { name := "out", type := Ty.base BaseTy.Tensor
  , ann := some { alias_set := ["a"] } }

/-- The functional schema `dot(Tensor self, Tensor tensor) -> Tensor`. -/
def dot_functional_schema : FunctionSchema :=
  { name := { base := "dot", overload := "" }
  , schema_order_arguments := [self_argument, tensor_argument]
  , arguments_out := []
  , arguments_non_out := [NonOutArg.selfA self_argument, NonOutArg.plain tensor_argument]
  , returns := [{ type := Ty.base BaseTy.Tensor }]
  , returns_cpp_type := "at::Tensor"
  , sig_rest := "Tensor self, Tensor tensor) -> Tensor" }

/-- The out schema
`dot.out(Tensor self, Tensor tensor, *, Tensor(a!) out) -> Tensor(a!)`. -/
def dot_out_schema : FunctionSchema :=
  { name := { base := "dot", overload := "out" }
  , schema_order_arguments := [self_argument, tensor_argument, dot_out_argument]
  , arguments_out := [dot_out_argument]
  , arguments_non_out := [NonOutArg.selfA self_argument, NonOutArg.plain tensor_argument]
  , returns := [{ type := Ty.base BaseTy.Tensor }]
  , returns_cpp_type := "at::Tensor &"
  , sig_rest := "Tensor self, Tensor tensor, *, Tensor(a!) out) -> Tensor(a!)" }

/-- The unstructured `dot` out-variant group: its base name is in
`no_memory_resize_ops` and it passes the Eligibility Classifier. -/
def dot_group : NativeFunctionsGroup :=
  { functional := { func := dot_functional_schema }
  , out := { func := dot_out_schema }
  , structured := false }

/-- A structured copy of the `dot` group (used to exercise the structured
argument-ordering branch). -/
def dot_struct_group : NativeFunctionsGroup :=
  { dot_group with structured := true }

/-- A copy of the `dot` group whose out schema carries the denylisted base
name `ger`. -/
def ger_group : NativeFunctionsGroup :=
  { dot_group with
    out := { func := { dot_out_schema with name := { base := "ger", overload := "out" } } } }

/-- A view schema for the denylisted base name `coalesce`. -/
def coalesce_view_group : NativeFunctionsViewGroup :=
  { view := { func :=
    { name := { base := "coalesce", overload := "" }
    , schema_order_arguments := [self_argument]
    , arguments_out := []
    , arguments_non_out := [NonOutArg.selfA self_argument]
    , returns := [{ type := Ty.base BaseTy.Tensor }]
    , returns_cpp_type := "at::Tensor"
    , sig_rest := "Tensor(a) self) -> Tensor(a)" } } }

/-- The view group `view_as_real(Tensor(a) self) -> Tensor(a)`. -/
def view_as_real_group : NativeFunctionsViewGroup :=
  { view := { func :=
    { name := { base := "view_as_real", overload := "" }
    , schema_order_arguments := [self_argument]
    , arguments_out := []
    , arguments_non_out := [NonOutArg.selfA self_argument]
    , returns := [{ type := Ty.base BaseTy.Tensor }]
    , returns_cpp_type := "at::Tensor"
    , sig_rest := "Tensor(a) self) -> Tensor(a)" } } }

/-- A schema with a list-typed argument, which no conversion rule covers. -/
def list_arg_schema : FunctionSchema :=
  { name := { base := "stack", overload := "" }
  , schema_order_arguments :=
      [{ name := "tensors", type := Ty.list (Ty.base BaseTy.Tensor), ann := none }]
  , arguments_out := []
  , arguments_non_out :=
      [NonOutArg.plain { name := "tensors", type := Ty.list (Ty.base BaseTy.Tensor), ann := none }]
  , returns := [{ type := Ty.base BaseTy.Tensor }]
  , returns_cpp_type := "at::Tensor"
  , sig_rest := "Tensor[] tensors) -> Tensor" }

/-- An unstructured copy of the `dot` group whose out schema declares two
output arguments. -/
def two_out_group : NativeFunctionsGroup :=
  { dot_group with
    out := { func := { dot_out_schema with
      arguments_out := [dot_out_argument, { dot_out_argument with name := "out2" }] } } }

/-! ## Helper lemmas -/

/-- String append is associative (data-level list append associativity). -/
theorem str_assoc : ∀ a b c : String, (a ++ b) ++ c = a ++ (b ++ c)
  | ⟨x⟩, ⟨y⟩, ⟨z⟩ => congrArg String.mk (List.append_assoc x y z)

/-- The data of an appended string is the appended data. -/
theorem str_data_append (a b : String) : (a ++ b).data = a.data ++ b.data := rfl

/-- `mapM_opt` fails when any element fails. -/
theorem mapM_opt_eq_none_of_mem {α β : Type} {f : α → Option β} :
    ∀ {l : List α} {a : α}, a ∈ l → f a = none → mapM_opt f l = none := by
  intro l
  induction l with
  | nil => intro a ha _; cases ha
  | cons b rest ih =>
    intro a ha hfa
    cases ha with
    | head => simp [mapM_opt, hfa]
    | tail _ hmem =>
      cases hfb : f b with
      | none => simp [mapM_opt, hfb]
      | some v => simp [mapM_opt, hfb, ih hmem hfa]

/-- The extraction loop fails when any argument type has no conversion
rule. -/
theorem arg_extraction_list_eq_none {l : List Argument} {a : Argument}
    (ha : a ∈ l) (hfa : ivalue_type_conversion_method a.type = none) :
    ∀ i : Nat, arg_extraction_list i l = none := by
  induction l with
  | nil => cases ha
  | cons b rest ih =>
    intro i
    cases ha with
    | head => simp [arg_extraction_list, hfa]
    | tail _ hmem =>
      cases hfb : ivalue_type_conversion_method b.type with
      | none => simp [arg_extraction_list, hfb]
      | some v => simp [arg_extraction_list, hfb, ih hmem (i + 1)]

/-- `find_idx` on a list split at the first hit. -/
theorem find_idx_append {p : Char → Bool} :
    ∀ (xs : List Char) (c : Char) (ys : List Char),
      (∀ a ∈ xs, p a = false) → p c = true →
      find_idx p (xs ++ c :: ys) = some xs.length := by
  intro xs
  induction xs with
  | nil =>
    intro c ys _ hc
    simp [find_idx, hc]
  | cons a rest ih =>
    intro c ys hxs hc
    have ha : p a = false := hxs a (List.mem_cons_self a rest)
    have hrest : ∀ b ∈ rest, p b = false := fun b hb => hxs b (List.mem_cons_of_mem a hb)
    simp [find_idx, ha, ih c ys hrest hc]

/-- A Bool-valued substring test (used only to evaluate emitted text at
concrete inputs). -/
def list_is_infix_b (sub : List Char) : List Char → Bool
  | [] => sub.isEmpty
  | c :: rest => List.isPrefixOf sub (c :: rest) || list_is_infix_b sub rest

/-- Whether `sub` occurs as a contiguous substring of `t`. -/
def str_contains (t sub : String) : Bool :=
  list_is_infix_b sub.data t.data

/-! ## Claim theorems -/

/-- C3: the Type Conversion Mapper returns no rule for list types and for any
type that is neither a base type nor an Optional wrapping a base type; among
the rules it does return, the only by-reference extraction is for the
non-optional Tensor base type; and every type the claim enumerates (int,
bool, Scalar, ScalarType, string, Tensor, and their Optional wrappings) does
have a rule. -/
theorem conversion_rules_shape :
    (∀ e : Ty, ivalue_type_conversion_method (Ty.list e) = none) ∧
    (∀ t : Ty, (∀ b : BaseTy, t ≠ Ty.base b) →
      (∀ b : BaseTy, t ≠ Ty.optional (Ty.base b)) →
      ivalue_type_conversion_method t = none) ∧
    (∀ (t : Ty) (r : Bool × String),
      ivalue_type_conversion_method t = some r →
      (r.1 = true ↔ t = Ty.base BaseTy.Tensor)) ∧
    ([ Ty.base BaseTy.Tensor, Ty.base BaseTy.int, Ty.base BaseTy.bool
     , Ty.base BaseTy.Scalar, Ty.base BaseTy.ScalarType, Ty.base BaseTy.str
     , Ty.optional (Ty.base BaseTy.Tensor), Ty.optional (Ty.base BaseTy.int)
     , Ty.optional (Ty.base BaseTy.bool), Ty.optional (Ty.base BaseTy.Scalar)
     , Ty.optional (Ty.base BaseTy.ScalarType), Ty.optional (Ty.base BaseTy.str)
     ].all (fun t => (ivalue_type_conversion_method t).isSome) = true) := by
  refine ⟨fun e => rfl, ?_, ?_, by decide⟩
  · intro t h1 h2
    cases t with
    | base b => exact absurd rfl (h1 b)
    | optional e =>
      cases e with
      | base b => exact absurd rfl (h2 b)
      | optional _ => rfl
      | list _ => rfl
    | list _ => rfl
  · intro t r h
    cases t with
    | base b =>
      cases b <;> simp_all [ivalue_type_conversion_method, type_conversion_methods] <;>
        simp [← h]
    | optional e =>
      cases e with
      | base b =>
        cases b <;> simp_all [ivalue_type_conversion_method, type_conversion_methods] <;>
          simp [← h]
      | optional _ => simp [ivalue_type_conversion_method] at h
      | list _ => simp [ivalue_type_conversion_method] at h
    | list _ => simp [ivalue_type_conversion_method] at h

/-- C3 witness: the list rule, the nested-Optional rule and the Tensor
by-reference rule at concrete types. -/
theorem conversion_rules_shape_witness :
    ivalue_type_conversion_method (Ty.list (Ty.base BaseTy.Tensor)) = none ∧
    ivalue_type_conversion_method (Ty.optional (Ty.optional (Ty.base BaseTy.int))) = none ∧
    ((true, "toTensor()").1 = true ↔ Ty.base BaseTy.Tensor = Ty.base BaseTy.Tensor) :=
  ⟨conversion_rules_shape.1 (Ty.base BaseTy.Tensor),
   conversion_rules_shape.2.1 (Ty.optional (Ty.optional (Ty.base BaseTy.int)))
     (fun b h => by cases h) (fun b h => by cases h),
   conversion_rules_shape.2.2.1 (Ty.base BaseTy.Tensor) (true, "toTensor()") rfl⟩

/-- C5: a group (out-variant or view) whose base operator name is in
`BLOCKED_OPS` is rejected by `is_supported`, whatever the hand-written
predicate says. -/
theorem blocked_ops_rejected (hw : HandWritten) (g : GroupU)
    (h : BLOCKED_OPS.contains (base_op_name g) = true) :
    is_supported hw g = false := by
  have hm : base_op_name g ∈ BLOCKED_OPS := by simpa using h
  simp [is_supported, hm]

/-- C5 witness: the denylisted view name `coalesce` and the denylisted
out-variant name `ger` are rejected. -/
theorem blocked_ops_rejected_witness :
    (BLOCKED_OPS.contains (base_op_name (GroupU.viewg coalesce_view_group)) = true ∧
      is_supported hand_written_none (GroupU.viewg coalesce_view_group) = false) ∧
    (BLOCKED_OPS.contains (base_op_name (GroupU.outg ger_group)) = true ∧
      is_supported hand_written_none (GroupU.outg ger_group) = false) :=
  ⟨⟨by decide, blocked_ops_rejected hand_written_none _ (by decide)⟩,
   ⟨by decide, blocked_ops_rejected hand_written_none _ (by decide)⟩⟩

/-- C4: a view group that is not hand-written, not denylisted, and all of
whose schema-order argument types have a conversion rule is supported exactly
when the C++ return type of its view schema is `at::Tensor`; no further check
is applied. -/
theorem view_group_support_iff_tensor_return (hw : HandWritten)
    (g : NativeFunctionsViewGroup)
    (h1 : hw (GroupU.viewg g) = false)
    (h2 : BLOCKED_OPS.contains (base_op_name (GroupU.viewg g)) = false)
    (h3 : ∀ arg ∈ g.view.func.schema_order_arguments,
      ivalue_type_conversion_method arg.type ≠ none) :
    (is_supported hw (GroupU.viewg g) = true ↔
      g.view.func.returns_cpp_type = "at::Tensor") := by
  have hsome : some_arg_unconvertible g.view.func = false := by
    unfold some_arg_unconvertible
    rw [List.any_eq_false]
    intro arg hmem
    cases hm : ivalue_type_conversion_method arg.type with
    | none => exact absurd hm (h3 arg hmem)
    | some v => simp
  have hm2 : base_op_name (GroupU.viewg g) ∉ BLOCKED_OPS := by
    simpa using h2
  simp [is_supported, h1, hm2, func_of, hsome]

/-- C4 witness: the `view_as_real` view group is supported, and its C++
return type is `at::Tensor`. -/
theorem view_group_support_iff_tensor_return_witness :
    is_supported hand_written_none (GroupU.viewg view_as_real_group) = true ↔
      view_as_real_group.view.func.returns_cpp_type = "at::Tensor" :=
  view_group_support_iff_tensor_return hand_written_none view_as_real_group
    rfl (by decide) (by decide)

/-- C6: with no entry in the tensor-shape override table, the tensor size
literal repeats, over `d` dimensions, the per-dimension size
`ceil(n / d)` rounded up to the next even number (written below in the
equivalent closed form `2 * ceil(n / (2 * d))`), where `n` is 16 for round 0
and 64 for every other round, and `d` is 1 for names in the first fixed
dimension table, 2 for names in the second, and 3 otherwise. -/
theorem default_tensor_shape_heuristic (op_name : String) (index : Nat)
    (h : test_tensor_shape_json.lookup op_name = none) :
    tensor_size_expr op_name index =
      (let d : Nat :=
        if test_tensor_dim_ops_1_.contains op_name then 1
        else if test_tensor_dim_ops_2_.contains op_name then 2 else 3
       let n : Nat := if index = 0 then 16 else 64
       let s : Nat := 2 * ((n + 2 * d - 1) / (2 * d))
       "\x7b" ++ str_join (",") (List.replicate d (Nat.repr s)) ++ "\x7d") := by
  unfold tensor_size_expr test_tensor_shape test_tensor_dim
  rw [h]
  by_cases h1 : op_name ∈ test_tensor_dim_ops_1_
  · by_cases hi : index = 0 <;> simp [h1, hi]
  · by_cases h2 : op_name ∈ test_tensor_dim_ops_2_
    · by_cases hi : index = 0 <;> simp [h1, h2, hi]
    · by_cases hi : index = 0 <;> simp [h1, h2, hi]

/-- C6 witness: `gather` (3 dimensions) at round 0 and `mm` (2 dimensions) at
round 1. -/
theorem default_tensor_shape_heuristic_witness :
    tensor_size_expr ("gather") 0 = "\x7b6,6,6\x7d" ∧
    tensor_size_expr ("mm") 1 = "\x7b32,32\x7d" :=
  ⟨(default_tensor_shape_heuristic ("gather") 0 (by decide)).trans (by decide),
   (default_tensor_shape_heuristic ("mm") 1 (by decide)).trans (by decide)⟩

/-- C2: for an out schema whose non-output slots all resolve, the synthesized
out-call argument list places all output names strictly before the non-output
names when the group is structured, and strictly after them when it is
unstructured; in the unstructured case exactly one output argument is
required, and any other output count is an assertion failure.  (`SelfArgument`
resolution to the underlying argument's name is `resolve_non_out_name`.) -/
theorem out_variant_argument_order (g : NativeFunctionsGroup)
    (resolved : List String)
    (hout : is_out_fn g.out.func = true)
    (hres : mapM_opt resolve_non_out_name g.out.func.arguments_non_out = some resolved) :
    (g.structured = true →
      out_variant_arg_names g =
        some (g.out.func.arguments_out.map Argument.name ++ resolved)) ∧
    (g.structured = false →
      (∀ out_arg, g.out.func.arguments_out = [out_arg] →
        out_variant_arg_names g = some (resolved ++ [out_arg.name])) ∧
      (g.out.func.arguments_out.length ≠ 1 → out_variant_arg_names g = none)) := by
  constructor
  · intro hs
    simp [out_variant_arg_names, hout, hres, hs]
  · intro hs
    constructor
    · intro out_arg ho
      simp [out_variant_arg_names, hout, hres, hs, ho]
    · intro hlen
      rcases harg : g.out.func.arguments_out with _ | ⟨a, _ | ⟨b, rest⟩⟩
      · rw [is_out_fn, harg] at hout
        simp at hout
      · rw [harg] at hlen
        simp at hlen
      · simp [out_variant_arg_names, hout, hres, hs, harg]

/-- C2 witness: the structured `dot` fixture lists `out` before
`self, tensor`; the unstructured one lists it after; an unstructured fixture
with two output arguments fails. -/
theorem out_variant_argument_order_witness :
    out_variant_arg_names dot_struct_group = some (["out", "self", "tensor"]) ∧
    out_variant_arg_names dot_group = some (["self", "tensor", "out"]) ∧
    out_variant_arg_names two_out_group = none := by
  refine ⟨?_, ?_, ?_⟩
  · have h := (out_variant_argument_order dot_struct_group (["self", "tensor"])
      (by decide) (by decide)).1 rfl
    simpa using h
  · have h := ((out_variant_argument_order dot_group (["self", "tensor"])
      (by decide) (by decide)).2 rfl).1 dot_out_argument rfl
    simpa using h
  · exact ((out_variant_argument_order two_out_group (["self", "tensor"])
      (by decide) (by decide)).2 rfl).2 (by decide)

/-- C10: the synthesized functional and out calls target `at::cpu` for a
structured group and `at::native` for an unstructured one, and the view call
always targets `at::native`, for every backend index. -/
theorem call_namespace_selection :
    (∀ (g : NativeFunctionsGroup) (bi : BackendIndex) (s : String),
      generate_non_out_variant_call g bi = some s →
      ∃ r, s = "at::" ++ (if g.structured then "cpu" else "native") ++ "::" ++ r) ∧
    (∀ (g : NativeFunctionsGroup) (bi : BackendIndex) (s : String),
      generate_out_variant_call g bi = some s →
      ∃ r, s = "at::" ++ (if g.structured then "cpu" else "native") ++ "::" ++ r) ∧
    (∀ (g : NativeFunctionsViewGroup) (bi : BackendIndex),
      ∃ r, generate_call_to_view_ops g bi = "at::native::" ++ r) := by
  refine ⟨?_, ?_, ?_⟩
  · intro g bi s h
    unfold generate_non_out_variant_call at h
    split at h
    · exact absurd h (by simp)
    · refine ⟨get_kernel_name g bi ++ "("
        ++ str_join (",") (g.functional.func.schema_order_arguments.map Argument.name)
        ++ ")", ?_⟩
      have hs := Option.some.inj h
      rw [← hs]
      simp [str_assoc]
  · intro g bi s h
    unfold generate_out_variant_call at h
    split at h
    · exact absurd h (by simp)
    · next arg_names heq =>
      refine ⟨get_out_kernel_name g bi ++ "(" ++ str_join (",") arg_names ++ ")", ?_⟩
      have hs := Option.some.inj h
      rw [← hs]
      simp [str_assoc]
  · intro g bi
    unfold generate_call_to_view_ops
    refine ⟨(match bi g.view with
      | some kernel => kernel.kernel
      | none => cpp_name g.view.func) ++ "("
      ++ str_join (",") (g.view.func.schema_order_arguments.map Argument.name)
      ++ ")", ?_⟩
    rw [show ("at::native::" : String) = "at::" ++ "native" ++ "::" from rfl]
    simp [str_assoc]

/-- C10 witness: the unstructured `dot` calls live in `at::native`, the
structured copy's calls in `at::cpu`, and the `view_as_real` call in
`at::native`. -/
theorem call_namespace_selection_witness :
    (∃ r, "at::native::dot(self,tensor)" =
      "at::" ++ (if dot_group.structured then "cpu" else "native") ++ "::" ++ r) ∧
    (∃ r, "at::cpu::dot_out(out,self,tensor)" =
      "at::" ++ (if dot_struct_group.structured then "cpu" else "native") ++ "::" ++ r) ∧
    (∃ r, generate_call_to_view_ops view_as_real_group trivial_backend =
      "at::native::" ++ r) :=
  ⟨call_namespace_selection.1 dot_group trivial_backend _ rfl,
   call_namespace_selection.2.1 dot_struct_group trivial_backend _ rfl,
   call_namespace_selection.2.2 view_as_real_group trivial_backend⟩

/-- Decomposition of the out-variant dispatch template around its zero-resize
step: the emitted closure text always contains `fastResizeToZero(out);`
immediately before the out-variant call. -/
theorem out_variant_dispatch_template_decomp (schema populated_argument
    functional_variant_call out_variable_name out_variant_call : String) :
    ∃ pre post,
      out_variant_dispatch_template schema populated_argument
          functional_variant_call out_variable_name out_variant_call =
        pre ++ "fastResizeToZero(" ++ out_variable_name ++ ");\n          "
          ++ out_variant_call ++ post := by
  refine ⟨"\n      if (n->matches(torch::schema(\"aten::" ++ schema
    ++ "\"))) \x7b\n        return [](ProcessedNode* p_node) \x7b\n          "
    ++ populated_argument
    ++ "\n          if (p_node->Output(0).isNone()) \x7b\n            p_node->Output(0) = "
    ++ functional_variant_call
    ++ ";\n            return;\n          \x7d\n          auto& "
    ++ out_variable_name
    ++ " = p_node->Output(0).toTensor();\n          ",
    ";\n        \x7d;\n      \x7d", ?_⟩
  simp [out_variant_dispatch_template, str_assoc]

/-- C1 (amended): every out-variant dispatch closure the generator emits
contains the zero-resize step `fastResizeToZero(out)` immediately before the
out-variant kernel call, whether or not the operator name is in
`no_memory_resize_ops`. -/
theorem resize_step_always_emitted (g : NativeFunctionsGroup)
    (bi : BackendIndex) (t : String)
    (h : out_variant_op_generator g bi = some t) :
    ∃ pre out_name out_call post,
      generate_out_variant_call g bi = some out_call ∧
      t = pre ++ "fastResizeToZero(" ++ out_name ++ ");\n          "
        ++ out_call ++ post := by
  unfold out_variant_op_generator at h
  cases heq1 : generate_arg_extraction g.functional.func with
  | none => rw [heq1] at h; simp at h
  | some populated =>
    rw [heq1] at h
    cases heq2 : generate_non_out_variant_call g bi with
    | none => rw [heq2] at h; simp at h
    | some fcall =>
      rw [heq2] at h
      rcases harg : g.out.func.arguments_out with _ | ⟨out_arg, _ | ⟨b, rest⟩⟩
      · rw [harg] at h; simp at h
      · rw [harg] at h
        cases heq3 : generate_out_variant_call g bi with
        | none => rw [heq3] at h; simp at h
        | some out_call =>
          rw [heq3] at h
          simp only [Option.some.injEq] at h
          obtain ⟨pre, post, hdec⟩ := out_variant_dispatch_template_decomp
            (schema_str g.functional.func) populated fcall out_arg.name out_call
          refine ⟨pre, out_arg.name, out_call, post, rfl, ?_⟩
          rw [← h]
          exact hdec
      · rw [harg] at h; simp at h

set_option maxRecDepth 4000 in
/-- C1 counterexample: the eligible, unstructured `dot` group — whose
overload-qualified name `dot` is in `no_memory_resize_ops` — still gets a
dispatch closure containing the zero-resize step, refuting the claim that
denylisted operators get a closure with no `fastResizeToZero` call. -/
theorem no_resize_denylist_counterexample :
    no_memory_resize_ops.contains (name_str dot_functional_schema.name) = true ∧
    is_supported hand_written_none (GroupU.outg dot_group) = true ∧
    Option.map (fun t => str_contains t ("fastResizeToZero"))
      (out_variant_op_generator dot_group trivial_backend) = some true :=
  ⟨by decide, by decide, by decide⟩

/-- C1 witness: the amended theorem applied to the emitted `dot` closure. -/
def dot_gen_text : String :=
  (out_variant_op_generator dot_group trivial_backend).getD ""

/-- C1 witness: the `dot` closure decomposes around its zero-resize step. -/
theorem resize_step_always_emitted_witness :
    out_variant_op_generator dot_group trivial_backend = some dot_gen_text ∧
    ∃ pre out_name out_call post,
      generate_out_variant_call dot_group trivial_backend = some out_call ∧
      dot_gen_text = pre ++ "fastResizeToZero(" ++ out_name ++ ");\n          "
        ++ out_call ++ post :=
  ⟨rfl, resize_step_always_emitted dot_group trivial_backend dot_gen_text rfl⟩

/-- `should_check_resize` is keyed by the overload-qualified operator name:
when that name contains no `(`, the slice of `str(schema)` up to the first `(`
is exactly the name, so the check is its (negated) denylist membership. -/
theorem should_check_resize_name (s : FunctionSchema)
    (hnp : ∀ c ∈ (name_str s.name).data, c ≠ '(') :
    should_check_resize s = !no_memory_resize_ops.contains (name_str s.name) := by
  have hdata : (schema_str s).data
      = (name_str s.name).data ++ '(' :: s.sig_rest.data := by
    unfold schema_str
    rw [str_data_append, str_data_append]
    simp
  have hfind : str_find (schema_str s) '(' = ((name_str s.name).data.length : Int) := by
    unfold str_find
    rw [hdata, find_idx_append]
    · intro a ha
      exact decide_eq_false (hnp a ha)
    · exact decide_eq_true rfl
  have hslice : py_slice_to (schema_str s) ((name_str s.name).data.length : Int)
      = name_str s.name := by
    unfold py_slice_to
    rw [if_neg (by omega)]
    rw [hdata]
    simp [List.take_left]
  simp only [should_check_resize]
  rw [hfind, hslice]

/-- Decomposition of the out-variant test template around its two
`check_resize` flags. -/
theorem out_variant_test_template_decomp (type_variant_op_name op_name
    arg_declarations arg_names test_value_definitions test_value_names
    test_value_definitions2 test_value_names2 check_resize : String) :
    ∃ pre mid post,
      out_variant_test_template type_variant_op_name op_name arg_declarations
          arg_names test_value_definitions test_value_names
          test_value_definitions2 test_value_names2 check_resize =
        pre ++ "/*check_resize=*/" ++ check_resize
          ++ mid ++ "/*check_resize=*/" ++ check_resize ++ post := by
  refine ⟨"\nTEST(StaticRuntime, autogen_" ++ type_variant_op_name
    ++ ") \x7b\n  const std::string script = R\"IR(\n    graph("
    ++ arg_declarations
    ++ "):\n        %bias: None = prim::Constant()\n        %ret = aten::"
    ++ op_name ++ "(" ++ arg_names
    ++ ")\n        %cloned = aten::clone(%ret, %bias)\n        return (%cloned)\n  )IR\";\n\n  "
    ++ test_value_definitions
    ++ "\n  std::vector<IValue> args\x7b" ++ test_value_names
    ++ "\x7d;\n  testStaticRuntime(script, args, \x7b\x7d, /*use_allclose=*/false, /*use_equalnan=*/false, ",
    ");\n\n  "
    ++ test_value_definitions2
    ++ "\n  std::vector<IValue> args2\x7b" ++ test_value_names2
    ++ "\x7d;\n  testStaticRuntime(script, args, args2, /*use_allclose=*/false, /*use_equalnan=*/false, ",
    ");\n\n\x7d\n", ?_⟩
  simp [out_variant_test_template, str_assoc]

/-- C9: the no-resize exemption is keyed by the overload-qualified operator
name (the schema text up to the first `(`), and the emitted out-variant test
threads the corresponding `check_resize` flag into both harness
invocations. -/
theorem resize_check_keyed_by_overload_name :
    (∀ s : FunctionSchema, (∀ c ∈ (name_str s.name).data, c ≠ '(') →
      (should_check_resize s = false ↔
        no_memory_resize_ops.contains (name_str s.name) = true)) ∧
    (∀ (ov : OverrideHook) (g : NativeFunctionsGroup) (t : String),
      out_variant_op_test_case_generator ov g = some t →
      ∃ pre mid post,
        t = pre ++ "/*check_resize=*/"
          ++ (if should_check_resize g.functional.func then "true" else "false")
          ++ mid ++ "/*check_resize=*/"
          ++ (if should_check_resize g.functional.func then "true" else "false")
          ++ post) := by
  constructor
  · intro s hnp
    rw [should_check_resize_name s hnp]
    cases hc : no_memory_resize_ops.contains (name_str s.name) <;> simp [hc]
  · intro ov g t h
    simp only [out_variant_op_test_case_generator] at h
    split at h
    · split at h
      · split at h
        · simp at h
        · split at h
          · split at h
            · simp at h
            · split at h
              · simp at h
              · split at h
                · simp at h
                · split at h
                  · simp at h
                  · simp only [Option.some.injEq] at h
                    exact h ▸ out_variant_test_template_decomp _ _ _ _ _ _ _ _ _
          · simp at h
      · simp at h
    · simp at h

/-- C9 witness text: the emitted `dot` test case. -/
def dot_tc_text : String :=
  (out_variant_op_test_case_generator override_identity dot_group).getD ""

/-- C9 witness: `dot` (overload-qualified name `dot`) is exempt, and its test
case passes `check_resize=false` at both marked positions. -/
theorem resize_check_keyed_by_overload_name_witness :
    (should_check_resize dot_functional_schema = false ↔
      no_memory_resize_ops.contains (name_str dot_functional_schema.name) = true) ∧
    out_variant_op_test_case_generator override_identity dot_group = some dot_tc_text ∧
    (∃ pre mid post,
      dot_tc_text = pre ++ "/*check_resize=*/"
        ++ (if should_check_resize dot_group.functional.func then "true" else "false")
        ++ mid ++ "/*check_resize=*/"
        ++ (if should_check_resize dot_group.functional.func then "true" else "false")
        ++ post) :=
  ⟨resize_check_keyed_by_overload_name.1 dot_functional_schema (by decide),
   rfl,
   resize_check_keyed_by_overload_name.2 override_identity dot_group dot_tc_text rfl⟩

/-- C7: every generator entry point fails (yields no text) on a non-empty
group sequence containing a group rejected by `is_supported`;
`generate_arg_extraction` fails when some argument type has no conversion
rule; and `generate_out_variant_call` fails on an unstructured group without
exactly one output argument. -/
theorem generators_fail_loudly :
    (∀ (hw : HandWritten) (bi : BackendIndex)
        (groups : List NativeFunctionsGroup) (g : NativeFunctionsGroup),
      g ∈ groups → is_supported hw (GroupU.outg g) = false →
      GenOpDispatcher.out_variant hw groups bi = none) ∧
    (∀ (hw : HandWritten) (bi : BackendIndex)
        (groups : List NativeFunctionsViewGroup) (g : NativeFunctionsViewGroup),
      g ∈ groups → is_supported hw (GroupU.viewg g) = false →
      GenOpDispatcher.view hw groups bi = none) ∧
    (∀ (hw : HandWritten) (ov : OverrideHook)
        (groups : List NativeFunctionsGroup) (g : NativeFunctionsGroup),
      g ∈ groups → is_supported hw (GroupU.outg g) = false →
      GenOpTestCase.out_variant hw ov groups = none) ∧
    (∀ (hw : HandWritten) (ov : OverrideHook)
        (groups : List NativeFunctionsViewGroup) (g : NativeFunctionsViewGroup),
      g ∈ groups → is_supported hw (GroupU.viewg g) = false →
      GenOpTestCase.view hw ov groups = none) ∧
    (∀ schema : FunctionSchema,
      (∃ arg ∈ schema.schema_order_arguments,
        ivalue_type_conversion_method arg.type = none) →
      generate_arg_extraction schema = none) ∧
    (∀ (g : NativeFunctionsGroup) (bi : BackendIndex),
      g.structured = false → g.out.func.arguments_out.length ≠ 1 →
      generate_out_variant_call g bi = none) := by
  refine ⟨?_, ?_, ?_, ?_, ?_, ?_⟩
  · intro hw bi groups g hmem hsup
    cases groups with
    | nil => cases hmem
    | cons g0 rest =>
      have hnone := mapM_opt_eq_none_of_mem (f := fun g =>
        if is_supported hw (GroupU.outg g) then out_variant_op_generator g bi
        else none) hmem (by simp [hsup])
      simp [GenOpDispatcher.out_variant, hnone]
  · intro hw bi groups g hmem hsup
    cases groups with
    | nil => cases hmem
    | cons g0 rest =>
      have hnone := mapM_opt_eq_none_of_mem (f := fun g =>
        if is_supported hw (GroupU.viewg g) then view_op_generator g bi
        else none) hmem (by simp [hsup])
      simp [GenOpDispatcher.view, hnone]
  · intro hw ov groups g hmem hsup
    cases groups with
    | nil => cases hmem
    | cons g0 rest =>
      have hnone := mapM_opt_eq_none_of_mem (f := fun g =>
        if is_supported hw (GroupU.outg g) then out_variant_op_test_case_generator ov g
        else none) hmem (by simp [hsup])
      simp [GenOpTestCase.out_variant, hnone]
  · intro hw ov groups g hmem hsup
    cases groups with
    | nil => cases hmem
    | cons g0 rest =>
      have hnone := mapM_opt_eq_none_of_mem (f := fun g =>
        if is_supported hw (GroupU.viewg g) then view_op_test_case_generator ov g
        else none) hmem (by simp [hsup])
      simp [GenOpTestCase.view, hnone]
  · intro schema hex
    obtain ⟨arg, hmem, hnone⟩ := hex
    have h := arg_extraction_list_eq_none hmem hnone 0
    simp [generate_arg_extraction, h]
  · intro g bi hs hlen
    unfold generate_out_variant_call out_variant_arg_names
    cases hout : is_out_fn g.out.func with
    | false => simp
    | true =>
      cases hres : mapM_opt resolve_non_out_name g.out.func.arguments_non_out with
      | none => simp [hres]
      | some resolved =>
        rcases harg : g.out.func.arguments_out with _ | ⟨a, _ | ⟨b, rest⟩⟩
        · rw [is_out_fn, harg] at hout
          simp at hout
        · rw [harg] at hlen
          simp at hlen
        · simp [hres, hs, harg]

/-- C7 witness: blocked groups make all four entry points fail; a list-typed
argument makes extraction fail; a two-output unstructured group makes the out
call fail. -/
theorem generators_fail_loudly_witness :
    GenOpDispatcher.out_variant hand_written_none [ger_group] trivial_backend = none ∧
    GenOpDispatcher.view hand_written_none [coalesce_view_group] trivial_backend = none ∧
    GenOpTestCase.out_variant hand_written_none override_identity [ger_group] = none ∧
    GenOpTestCase.view hand_written_none override_identity [coalesce_view_group] = none ∧
    generate_arg_extraction list_arg_schema = none ∧
    generate_out_variant_call two_out_group trivial_backend = none :=
  ⟨generators_fail_loudly.1 hand_written_none trivial_backend [ger_group] ger_group
      (List.mem_singleton.mpr rfl) (by decide),
   generators_fail_loudly.2.1 hand_written_none trivial_backend [coalesce_view_group]
      coalesce_view_group (List.mem_singleton.mpr rfl) (by decide),
   generators_fail_loudly.2.2.1 hand_written_none override_identity [ger_group]
      ger_group (List.mem_singleton.mpr rfl) (by decide),
   generators_fail_loudly.2.2.2.1 hand_written_none override_identity
      [coalesce_view_group] coalesce_view_group (List.mem_singleton.mpr rfl) (by decide),
   generators_fail_loudly.2.2.2.2.1 list_arg_schema
      ⟨{ name := "tensors", type := Ty.list (Ty.base BaseTy.Tensor), ann := none },
        by decide, rfl⟩,
   generators_fail_loudly.2.2.2.2.2 two_out_group trivial_backend rfl (by decide)⟩

/-- C8: each generator entry point is a pure function — two invocations on
the same `(hand-written predicate, groups, backend index / override hook)`
input are the same term, hence byte-identical text — and the empty group
sequence yields exactly the empty string, not an error. -/
theorem generator_determinism_and_empty :
    (∀ (hw : HandWritten) (groups : List NativeFunctionsGroup) (bi : BackendIndex),
      GenOpDispatcher.out_variant hw groups bi = GenOpDispatcher.out_variant hw groups bi) ∧
    (∀ (hw : HandWritten) (groups : List NativeFunctionsViewGroup) (bi : BackendIndex),
      GenOpDispatcher.view hw groups bi = GenOpDispatcher.view hw groups bi) ∧
    (∀ (hw : HandWritten) (ov : OverrideHook) (groups : List NativeFunctionsGroup),
      GenOpTestCase.out_variant hw ov groups = GenOpTestCase.out_variant hw ov groups) ∧
    (∀ (hw : HandWritten) (ov : OverrideHook) (groups : List NativeFunctionsViewGroup),
      GenOpTestCase.view hw ov groups = GenOpTestCase.view hw ov groups) ∧
    (∀ (hw : HandWritten) (bi : BackendIndex),
      GenOpDispatcher.out_variant hw [] bi = some "") ∧
    (∀ (hw : HandWritten) (bi : BackendIndex),
      GenOpDispatcher.view hw [] bi = some "") ∧
    (∀ (hw : HandWritten) (ov : OverrideHook),
      GenOpTestCase.out_variant hw ov [] = some "") ∧
    (∀ (hw : HandWritten) (ov : OverrideHook),
      GenOpTestCase.view hw ov [] = some "") :=
  ⟨fun _ _ _ => rfl, fun _ _ _ => rfl, fun _ _ _ => rfl, fun _ _ _ => rfl,
   fun _ _ => rfl, fun _ _ => rfl, fun _ _ => rfl, fun _ _ => rfl⟩

end StaticRuntimeGen
